import Mathlib

/-!
Shallow embedding of the Bulk API job/batch engine of `src/sobject.ts`
(classes `Job`, `Batch`, `Bulk`, `PollingTimeoutError`).

JavaScript-specific conventions used throughout:
* a possibly-missing object field is `Option`;
* string truthiness: `null`/`undefined` and the empty string are falsy;
* `parseInt(s, 10)` is modelled by `jsParseInt`, returning `none` for `NaN`.
-/

/-- JS string truthiness over a nullable string: `null`/`undefined` and `""` are falsy. -/
def jsTruthy : Option String → Bool
  | none => false
  | some s => s ≠ ""

/-- Whitespace characters accepted by JS `parseInt` / regex `\s` (ASCII subset). -/
def isSpaceJS (c : Char) : Bool :=
  c = ' ' || c = '\t' || c = '\n' || c = '\r' || c = '\x0b' || c = '\x0c'

/-- Regex `\w` word characters: ASCII letters, digits, underscore. -/
def isWordChar (c : Char) : Bool :=
  c.isAlphanum || c = '_'

/-- Numeric value of a list of decimal digit characters. -/
def digitsVal (ds : List Char) : Nat :=
  ds.foldl (fun a c => a * 10 + (c.toNat - '0'.toNat)) 0

/-- JS `parseInt(s, 10)`: skip leading whitespace, optional sign, longest digit
prefix; `none` models `NaN` (no digits found). -/
def jsParseInt (s : String) : Option Int :=
  let cs := s.data.dropWhile isSpaceJS
  let signAndRest : Int × List Char :=
    match cs with
    | '-' :: rest => (-1, rest)
    | '+' :: rest => (1, rest)
    | _ => (1, cs)
  let ds := signAndRest.2.takeWhile Char.isDigit
  if ds.isEmpty then none else some (signAndRest.1 * (digitsVal ds : Int))

/-- `type BulkOperation` of `sobject.ts`. -/
inductive BulkOperation
  | insert
  | update
  | upsert
  | delete
  | hardDelete
  | query
  | queryAll
deriving DecidableEq, Repr

/-- `type JobState` of `sobject.ts`. -/
inductive JobState
  | Open
  | Closed
  | Aborted
  | Failed
  | Unknown
deriving DecidableEq, Repr

/-- `type BatchState` of `sobject.ts`. -/
inductive BatchState
  | Queued
  | InProgress
  | Completed
  | Failed
  | NotProcessed
deriving DecidableEq, Repr

/-- `type BulkOptions` of `sobject.ts` (all fields optional). -/
structure BulkOptions where
  extIdField : Option String := none
  concurrencyMode : Option String := none
  assignmentRuleId : Option String := none
deriving DecidableEq, Repr

/-- `type JobInfo` of `sobject.ts`. -/
structure JobInfo where
  id : String
  object : String
  operation : BulkOperation
  state : JobState
deriving DecidableEq, Repr

/-- `type BatchInfo` of `sobject.ts` (counts are textual, as on the wire). -/
structure BatchInfo where
  id : String
  jobId : String
  state : BatchState
  stateMessage : String
  numberRecordsProcessed : String
  numberRecordsFailed : String
  totalProcessingTime : String
deriving DecidableEq, Repr

/-- A JS `Error` value as the bulk engine sees it: `name`, `message`, and the
extra `jobId` / `batchId` fields carried by `PollingTimeoutError`. -/
structure BatchError where
  name : String
  message : String
  jobId : Option String := none
  batchId : Option String := none
deriving DecidableEq, Repr

/-- `new Error(message)`: a plain JS error, whose `name` is `"Error"`. -/
def mkError (message : String) : BatchError :=
  { name := "Error", message := message }

/-- The `PollingTimeoutError` constructor: `name` is set to `"PollingTimeout"`
and the job/batch identities are stored on the error. -/
def mkPollingTimeoutError (jobId batchId : String) : BatchError :=
  { name := "PollingTimeout"
    message := "Polling time out. Job Id = " ++ jobId ++ " , batch Id = " ++ batchId
    jobId := some jobId
    batchId := some batchId }

/-- Observable actions of one `Batch.poll` tick: events emitted on the batch,
plus whether `retrieve()` is invoked. -/
inductive PollEvent
  | errorEvt (e : BatchError)
  | retrieveCall
  | progressEvt (info : BatchInfo)
deriving DecidableEq, Repr

/-- The condition `parseInt(res.numberRecordsProcessed, 10) > 0`
(`NaN > 0` is `false` in JS). -/
def parsedRecordsPos (s : String) : Bool :=
  match jsParseInt s with
  | some n => decide (0 < n)
  | none => false

/-- One tick of the `poll` closure inside `Batch.poll` (sobject.ts lines
1020-1050).  `now` is the clock reading at the start of the tick and
`checkRes` the outcome of `this.check()`.  Returns the events emitted during
the tick and whether `setTimeout(poll, interval)` schedules a further tick. -/
def pollTick (startTime timeout now : Nat) (jobId batchId : String)
    (checkRes : Except BatchError BatchInfo) : List PollEvent × Bool :=
  if startTime + timeout < now then
    ([PollEvent.errorEvt (mkPollingTimeoutError jobId batchId)], false)
  else
    match checkRes with
    | Except.error err => ([PollEvent.errorEvt err], false)
    | Except.ok res =>
      if res.state = BatchState.Failed then
        if parsedRecordsPos res.numberRecordsProcessed then
          ([PollEvent.retrieveCall], false)
        else
          ([PollEvent.errorEvt (mkError res.stateMessage)], false)
      else if res.state = BatchState.Completed then
        ([PollEvent.retrieveCall], false)
      else
        ([PollEvent.progressEvt res], true)

/-- The whole poll loop run against a trace of ticks, each supplying the clock
reading and the `check()` outcome for that tick.  Ticks after a tick that does
not reschedule never run. -/
def pollRun (startTime timeout : Nat) (jobId batchId : String) :
    List (Nat × Except BatchError BatchInfo) → List PollEvent
  | [] => []
  | (now, checkRes) :: rest =>
    let step := pollTick startTime timeout now jobId batchId checkRes
    step.1 ++ (if step.2 then pollRun startTime timeout jobId batchId rest else [])

/-- The `cleanupOnError` handler wired by `Bulk.load` (sobject.ts lines
1244-1248): returns whether `job.close()` is requested for the given batch
error. -/
def cleanupOnError (err : BatchError) : Bool :=
  err.name ≠ "PollingTimeout"

/-- The `batch.on('response', cleanup)` wiring of `Bulk.load`: a successful
response always requests `job.close()`. -/
def cleanupOnResponse : Bool :=
  true

/-- The mutable fields of a `Job` instance relevant to its lifecycle, plus a
counter for allocating promise references (the `_jobInfo` field stores such a
reference so memoization can be observed). -/
structure Job where
  type : Option String
  operation : Option BulkOperation
  options : BulkOptions
  id : Option String
  state : JobState
  jobInfo : Option Nat
  nextRef : Nat
deriving DecidableEq, Repr

/-- The `Job` constructor (sobject.ts lines 574-589): `id` is the given job id
or null, `state` is `'Open'` when the id is truthy and `'Unknown'` otherwise,
and no job-info request is pending. -/
def mkJob (type : Option String) (operation : Option BulkOperation)
    (options : Option BulkOptions) (jobId : Option String) : Job :=
  { type := type
    operation := operation
    options := options.getD {}
    id := jobId
    state := if jsTruthy jobId then JobState.Open else JobState.Unknown
    jobInfo := none
    nextRef := 0 }

/-- `Job.open` (sobject.ts lines 605-669), up to issuing the request.  Throws
synchronously when `type` or `operation` is falsy; otherwise, when `_jobInfo`
is already set it returns that same pending/completed promise reference and
issues no request, and when it is not set it stores and returns a fresh
reference, issuing one request.  The returned `Bool` records whether an open
request was issued. -/
def jobOpen (j : Job) : Except String (Nat × Job × Bool) :=
  if ¬ jsTruthy j.type ∨ j.operation = none then
    Except.error "type / operation is required to open a new job"
  else
    match j.jobInfo with
    | some r => Except.ok (r, j, false)
    | none =>
      Except.ok
        (j.nextRef,
         { j with jobInfo := some j.nextRef, nextRef := j.nextRef + 1 },
         true)

/-- The success continuation inside `Job.open`'s request (sobject.ts lines
658-660): record the assigned identity and the remote-reported state. -/
def jobOpenApply (j : Job) (info : JobInfo) : Job :=
  { j with id := some info.id, state := info.state }

/-- `Job._changeState` (sobject.ts lines 784-810) applied to the transport
outcome `resp`: the `_jobInfo` cache is replaced with the new request's promise
in both cases, but `state` is updated only when the request succeeds. -/
def jobChangeState (j : Job) (resp : Except BatchError JobInfo) : Job :=
  let j1 := { j with jobInfo := some j.nextRef, nextRef := j.nextRef + 1 }
  match resp with
  | Except.ok info => { j1 with state := info.state }
  | Except.error _ => j1

/-- `Job.close` (sobject.ts lines 750-760) applied to the transport outcome of
its `_changeState('Closed')` call: on success the cached identity is cleared;
on failure the error is re-raised after an `error` event. -/
def jobClose (j : Job) (resp : Except BatchError JobInfo) :
    Job × Except BatchError JobInfo :=
  let j1 := jobChangeState j resp
  match resp with
  | Except.ok info => ({ j1 with id := none }, Except.ok info)
  | Except.error e => (j1, Except.error e)

/-- `Job.abort` (sobject.ts lines 769-779) applied to the transport outcome of
its `_changeState('Aborted')` call. -/
def jobAbort (j : Job) (resp : Except BatchError JobInfo) :
    Job × Except BatchError JobInfo :=
  let j1 := jobChangeState j resp
  match resp with
  | Except.ok info => ({ j1 with id := none }, Except.ok info)
  | Except.error e => (j1, Except.error e)

/-- A JS scalar value as found in a record field. -/
inductive JSVal
  | str (s : String)
  | boolean (b : Bool)
  | num (n : Int)
  | null
deriving DecidableEq, Repr

/-- A record: an ordered mapping of field names to scalar values.  A key's
presence in the list models the field's presence on the JS object. -/
abbrev RecordJ : Type := List (String × JSVal)

/-- The kept-field condition of the rest-destructuring
`const { Id, type, attributes, ...rrec } = record_` in `Batch._write`. -/
def isDataKey (k : String) : Bool :=
  !(k == "Id") && !(k == "type") && !(k == "attributes")

/-- `Batch._write` (sobject.ts lines 906-921): the record actually passed to
the upload (encode) stream.  The destructuring reads `Id` (possibly
`undefined`, hence `Option`) and collects the remaining fields except `type`
and `attributes`; the shaped record depends on the owning job's operation. -/
def writeShape (op : Option BulkOperation) (record : RecordJ) :
    List (String × Option JSVal) :=
  let idVal : Option JSVal := (record.find? (fun p => p.1 = "Id")).map Prod.snd
  let rrec : List (String × Option JSVal) :=
    (record.filter (fun p => isDataKey p.1)).map (fun p => (p.1, some p.2))
  match op with
  | some BulkOperation.insert => rrec
  | some BulkOperation.delete => [("Id", idVal)]
  | some BulkOperation.hardDelete => [("Id", idVal)]
  | _ => ("Id", idVal) :: rrec

/-- The part of a `Batch`'s state that `execute` consults: whether `_result`
has already been created. -/
structure BatchExecState where
  hasResult : Bool
deriving DecidableEq, Repr

/-- The kinds of input `Batch.execute` accepts. -/
inductive ExecInput
  | stream
  | records (rs : List RecordJ)
  | raw (s : String)
  | nothing
deriving DecidableEq, Repr

/-- Observable actions of `Batch.execute`'s input handling. -/
inductive ExecEffect
  | pipeInput
  | writeRecord (r : RecordJ)
  | endWritable
  | writeRaw (s : String)
  | endDataStream
deriving DecidableEq, Repr

/-- The in-place coercion applied by `execute` to an array element: boolean
field values are replaced by their `String(...)` form. -/
def coerceRecord (r : RecordJ) : RecordJ :=
  r.map (fun p =>
    match p.2 with
    | JSVal.boolean b => (p.1, JSVal.str (if b then "true" else "false"))
    | v => (p.1, v))

/-- The input-dispatch of `Batch.execute` (sobject.ts lines 944-964): a
readable stream is piped in; an array of records is written record by record
(booleans stringified) then the writable side is ended; a string is written
raw to the data stream which is then ended; anything else does nothing. -/
def execEffects : ExecInput → List ExecEffect
  | ExecInput.stream => [ExecEffect.pipeInput]
  | ExecInput.records rs =>
    rs.map (fun r => ExecEffect.writeRecord (coerceRecord r)) ++ [ExecEffect.endWritable]
  | ExecInput.raw s => [ExecEffect.writeRaw s, ExecEffect.endDataStream]
  | ExecInput.nothing => []

/-- `Batch.execute` (sobject.ts lines 933-968): throws synchronously when
`_result` already exists, otherwise creates `_result` and handles the input. -/
def batchExecute (b : BatchExecState) (input : ExecInput) :
    Except String (BatchExecState × List ExecEffect) :=
  if b.hasResult then
    Except.error "Batch already executed."
  else
    Except.ok ({ hasResult := true }, execEffects input)

/-- `run = this.execute` alias on `Batch`. -/
def batchRun : BatchExecState → ExecInput → Except String (BatchExecState × List ExecEffect) :=
  batchExecute

/-- `exec = this.execute` alias on `Batch`. -/
def batchExec : BatchExecState → ExecInput → Except String (BatchExecState × List ExecEffect) :=
  batchExecute

/-- One row of `BulkLoadResultResponse` as it exists at runtime: the XML/CSV
decoding may omit a field entirely, hence `Option` values. -/
structure LoadResultRow where
  Id : Option String
  Success : Option String
  Error : Option String
deriving DecidableEq, Repr

/-- One entry of `BulkLoadBatchResult`. -/
structure LoadBatchResultEntry where
  id : Option String
  success : Bool
  errors : List String
deriving DecidableEq, Repr

/-- The per-row decoding inside `Batch.retrieve` for load operations
(sobject.ts lines 1083-1088): `id: ret.Id || null`,
`success: ret.Success === 'true'`, `errors: ret.Error ? [ret.Error] : []`. -/
def decodeLoadRow (r : LoadResultRow) : LoadBatchResultEntry :=
  { id := if jsTruthy r.Id then r.Id else none
    success := r.Success = some "true"
    errors :=
      match r.Error with
      | some e => if e = "" then [] else [e]
      | none => [] }

/-- The load branch of `Batch.retrieve`: `res.map(...)` over the remote
outcome rows. -/
def retrieveLoad (rows : List LoadResultRow) : List LoadBatchResultEntry :=
  rows.map decodeLoadRow

/-- Modelled from the spec words of C3 ("each entry's id is the row's Id or
null when absent; success is true exactly when the row's Success text equals
true; errors is the one-element list containing the row's error message when
one was present and the empty list otherwise"), for comparison with
`decodeLoadRow`. -/
def specDecodeRow (r : LoadResultRow) : LoadBatchResultEntry :=
  { id := r.Id
    success := r.Success = some "true"
    errors :=
      match r.Error with
      | some e => [e]
      | none => [] }

/-- The amended per-row decoding: id is the row's Id when present and
non-empty, null when absent or empty; errors contains the row's error message
exactly when a non-empty one is present. -/
def amendedDecodeRow (r : LoadResultRow) : LoadBatchResultEntry :=
  { id :=
      match r.Id with
      | some s => if s = "" then none else some s
      | none => none
    success := r.Success = some "true"
    errors :=
      match r.Error with
      | some e => if e = "" then [] else [e]
      | none => [] }

/-- Index of the first occurrence of a character in a list, if any. -/
def firstIdx (c : Char) : List Char → Option Nat
  | [] => none
  | x :: xs => if x = c then some 0 else (firstIdx c xs).map (· + 1)

/-- Index of the last occurrence of a character in a list, if any. -/
def lastIdx (c : Char) (cs : List Char) : Option Nat :=
  (firstIdx c cs.reverse).map (fun k => cs.length - 1 - k)

/-- `soql.replace(/\([\s\S]+\)/g, '')` of `Bulk.query` (sobject.ts line 1261).
The greedy pattern matches from the first `'('` to the last `')'` provided at
least one character lies between them (and, the remainder containing no
further `')'`, the global flag finds no second match), so the replacement
deletes that single span. -/
def stripParens (s : String) : String :=
  let cs := s.data
  match firstIdx '(' cs, lastIdx ')' cs with
  | some i, some j =>
    if i + 2 ≤ j then String.mk (cs.take i ++ cs.drop (j + 1)) else s
  | some _, none => s
  | none, _ => s

/-- Attempt of the regex `/FROM\s+(\w+)/i` at the head of the text: the four
letters of `FROM` case-insensitively, one or more whitespace characters, then
the captured maximal run of one or more word characters. -/
def matchFromAt : List Char → Option String
  | c1 :: c2 :: c3 :: c4 :: rest =>
    if c1.toLower = 'f' ∧ c2.toLower = 'r' ∧ c3.toLower = 'o' ∧ c4.toLower = 'm' then
      let sp := rest.takeWhile isSpaceJS
      if sp.isEmpty then none
      else
        let w := (rest.drop sp.length).takeWhile isWordChar
        if w.isEmpty then none else some (String.mk w)
    else none
  | _ => none

/-- The regex engine's left-to-right scan for `/FROM\s+(\w+)/i`: the capture
of the first position at which the pattern matches. -/
def findFromCapture : List Char → Option String
  | [] => none
  | c :: cs =>
    match matchFromAt (c :: cs) with
    | some t => some t
    | none => findFromCapture cs

/-- Whether some suffix of the text matches the `FROM <entity>` pattern. -/
def anySuffixFrom : List Char → Bool
  | [] => (matchFromAt []).isSome
  | c :: cs => (matchFromAt (c :: cs)).isSome || anySuffixFrom cs

/-- Spec-side predicate: a `FROM <entity>` clause (the word `FROM`
case-insensitively, whitespace, then an entity word) can be found in the given
text. -/
def hasFromClause (s : String) : Bool :=
  anySuffixFrom s.data

/-- The synchronous part of `Bulk.query` (sobject.ts lines 1260-1267): strip
parenthesized groups, match `FROM <entity>`, and throw when no match. -/
def bulkQueryType (soql : String) : Except String String :=
  match findFromCapture (stripParens soql).data with
  | none => Except.error "No sobject type found in query, maybe caused by invalid SOQL."
  | some t => Except.ok t

/-- One entry of `BulkQueryBatchResult`: a result-part reference. -/
structure QueryResultRef where
  id : String
  batchId : String
  jobId : String
deriving DecidableEq, Repr

/-- Events observable on the record stream returned by `Bulk.query`. -/
inductive QueryStreamEvent
  | errorEvt (e : String)
  | partStream (jobId batchId resultId : String)
deriving DecidableEq, Repr

/-- The asynchronous continuation of `Bulk.query` (sobject.ts lines
1270-1283), as a function of the outcome of awaiting the `load` call: a
failure is emitted as a single error event on the already-returned record
stream, and a success opens one result-part stream per reference, in the
reported order. -/
def queryFanout : Except String (List QueryResultRef) → List QueryStreamEvent
  | Except.error err => [QueryStreamEvent.errorEvt err]
  | Except.ok results =>
    results.map (fun r => QueryStreamEvent.partStream r.jobId r.batchId r.id)

/-- `Except.isOk` as a plain boolean on the query result. -/
def exceptIsOk {α β : Type} : Except α β → Bool
  | Except.ok _ => true
  | Except.error _ => false

/-! ## Helper lemmas -/

lemma decodeLoadRow_eq_amended (r : LoadResultRow) :
    decodeLoadRow r = amendedDecodeRow r := by
  obtain ⟨i, s, e⟩ := r
  cases i with
  | none => rfl
  | some a =>
    by_cases h : a = "" <;>
      simp [decodeLoadRow, amendedDecodeRow, jsTruthy, h]

lemma findFromCapture_isSome_eq (cs : List Char) :
    (findFromCapture cs).isSome = anySuffixFrom cs := by
  induction cs with
  | nil => rfl
  | cons c cs ih =>
    unfold findFromCapture anySuffixFrom
    cases h : matchFromAt (c :: cs) <;> simp [h, ih]

/-! ## Claim theorems -/

/-- C3 counterexample: the claim's decoding ("each entry's id is the row's Id
or null when absent") disagrees with `Batch.retrieve` on a row whose `Id`
field is present but the empty string: the code decodes it to null. -/
theorem batchRetrieveLoadClaimCounterexample :
    retrieveLoad [⟨some "", some "true", none⟩]
      ≠ List.map specDecodeRow [⟨some "", some "true", none⟩] := by
  decide

/-- C3 (amended): for a load-operation result retrieval, the returned envelope
has one entry per remote outcome row in the reported order, where each entry's
id is the row's Id when present and non-empty and null otherwise, success is
true exactly when the row's Success text equals "true", and errors is the
one-element list of the row's error message when a non-empty one is present
and the empty list otherwise. -/
theorem batchRetrieveLoadSpec (rows : List LoadResultRow) :
    retrieveLoad rows = rows.map amendedDecodeRow := by
  unfold retrieveLoad
  induction rows with
  | nil => rfl
  | cons r rest ih => simp [ih, decodeLoadRow_eq_amended r]

/-- C9: a remote outcome row whose Id field is the empty string is decoded
with id = null, exactly as a row with no Id field at all — `Batch.retrieve`
distinguishes ids by JS falsiness, not by field presence. -/
theorem batchRetrieveIdFalsinessSpec (s e : Option String) :
    (decodeLoadRow ⟨some "", s, e⟩).id = none
    ∧ (decodeLoadRow ⟨none, s, e⟩).id = none := by
  constructor <;> rfl

/-- C10: when the transport request behind `Job.close` or `Job.abort` fails,
the job's cached identity and lifecycle-state fields are unchanged; the
identity is cleared (only) when the state-change request succeeds. -/
theorem jobCloseAbortFailureSpec (j : Job) (e : BatchError) (info : JobInfo) :
    (jobClose j (Except.error e)).1.id = j.id
    ∧ (jobClose j (Except.error e)).1.state = j.state
    ∧ (jobAbort j (Except.error e)).1.id = j.id
    ∧ (jobAbort j (Except.error e)).1.state = j.state
    ∧ (jobClose j (Except.ok info)).1.id = none
    ∧ (jobAbort j (Except.ok info)).1.id = none := by
  simp [jobClose, jobAbort, jobChangeState]

/-- C8 counterexample: the claim ties the synchronous throw of `Bulk.query` to
the absence of a `FROM <entity>` clause in the SOQL text, but the code first
removes parenthesized groups: on `"(a FROM b)"` a FROM clause is present in
the text, yet `Bulk.query` throws. -/
theorem bulkQueryClaimCounterexample :
    ¬ (exceptIsOk (bulkQueryType "(a FROM b)") = hasFromClause "(a FROM b)") := by
  decide

/-- C8 (amended): `Bulk.query` throws synchronously (with its descriptive
error) exactly when no `FROM <entity>` clause can be found in the SOQL text
after parenthesized groups have been removed; and once the record stream has
been returned, a failure in obtaining the result-part list is delivered as a
single error event on that stream (the asynchronous continuation emits it;
nothing is thrown from the synchronous call). -/
theorem bulkQuerySpec (soql : String) (e : String) :
    exceptIsOk (bulkQueryType soql) = hasFromClause (stripParens soql)
    ∧ queryFanout (Except.error e) = [QueryStreamEvent.errorEvt e] := by
  constructor
  · have h := findFromCapture_isSome_eq (stripParens soql).data
    unfold bulkQueryType hasFromClause
    cases hf : findFromCapture (stripParens soql).data <;>
      simp [hf] at h <;> simp [hf, exceptIsOk, h]
  · rfl

/-- C1: when the elapsed time since poll start exceeds the deadline, the poll
loop emits exactly one typed timeout failure carrying both the job and batch
identities and schedules no further tick; for a batch created through
`Bulk.load`, this timeout failure does not request the owning job's close,
while every other batch error, and a successful response, does. -/
theorem batchPollTimeoutSpec (startTime timeout now : Nat) (jobId batchId : String)
    (checkRes : Except BatchError BatchInfo)
    (rest : List (Nat × Except BatchError BatchInfo))
    (e : BatchError)
    (h : startTime + timeout < now) (he : e.name ≠ "PollingTimeout") :
    pollRun startTime timeout jobId batchId ((now, checkRes) :: rest)
        = [PollEvent.errorEvt (mkPollingTimeoutError jobId batchId)]
    ∧ (mkPollingTimeoutError jobId batchId).jobId = some jobId
    ∧ (mkPollingTimeoutError jobId batchId).batchId = some batchId
    ∧ cleanupOnError (mkPollingTimeoutError jobId batchId) = false
    ∧ cleanupOnError e = true
    ∧ cleanupOnResponse = true := by
  refine ⟨?_, rfl, rfl, by simp [cleanupOnError, mkPollingTimeoutError], ?_, rfl⟩
  · simp [pollRun, pollTick, h]
  · simp [cleanupOnError, he]

theorem batchPollTimeoutSpec_witness :
    pollRun 0 5 "750jobx" "751batchx" [(6, Except.error (mkError "boom"))]
        = [PollEvent.errorEvt (mkPollingTimeoutError "750jobx" "751batchx")]
    ∧ (mkPollingTimeoutError "750jobx" "751batchx").jobId = some "750jobx"
    ∧ (mkPollingTimeoutError "750jobx" "751batchx").batchId = some "751batchx"
    ∧ cleanupOnError (mkPollingTimeoutError "750jobx" "751batchx") = false
    ∧ cleanupOnError (mkError "boom") = true
    ∧ cleanupOnResponse = true :=
  batchPollTimeoutSpec 0 5 6 "750jobx" "751batchx"
    (Except.error (mkError "boom")) [] (mkError "boom") (by decide) (by decide)

/-- C5: on a poll tick within the deadline whose remote-reported state is
`Failed`, the batch proceeds to result retrieval when the textual
`numberRecordsProcessed` parses to a value greater than zero, and emits a
failure carrying the remote's `stateMessage` (without retrieving) when it
parses to zero. -/
theorem batchPollFailedSpec (startTime timeout now : Nat) (jobId batchId : String)
    (res : BatchInfo) (n : Int)
    (hnow : ¬ startTime + timeout < now)
    (hstate : res.state = BatchState.Failed)
    (hparse : jsParseInt res.numberRecordsProcessed = some n) :
    (0 < n → pollTick startTime timeout now jobId batchId (Except.ok res)
        = ([PollEvent.retrieveCall], false))
    ∧ (n = 0 → pollTick startTime timeout now jobId batchId (Except.ok res)
        = ([PollEvent.errorEvt (mkError res.stateMessage)], false)) := by
  constructor <;> intro hn <;>
    simp [pollTick, hnow, hstate, parsedRecordsPos, hparse, hn]

theorem batchPollFailedSpec_witness :
    (0 < (2 : Int) →
      pollTick 0 10 5 "750jobw" "751batchw"
          (Except.ok ⟨"751batchw", "750jobw", BatchState.Failed, "oops", "2", "0", "1"⟩)
        = ([PollEvent.retrieveCall], false))
    ∧ ((2 : Int) = 0 →
      pollTick 0 10 5 "750jobw" "751batchw"
          (Except.ok ⟨"751batchw", "750jobw", BatchState.Failed, "oops", "2", "0", "1"⟩)
        = ([PollEvent.errorEvt (mkError "oops")], false)) :=
  batchPollFailedSpec 0 10 5 "750jobw" "751batchw"
    ⟨"751batchw", "750jobw", BatchState.Failed, "oops", "2", "0", "1"⟩ 2
    (by decide) rfl (by decide)

lemma rrec_keys (record : RecordJ)
    (htype : "type" ∉ record.map Prod.fst)
    (hattr : "attributes" ∉ record.map Prod.fst) :
    ((record.filter (fun p => isDataKey p.1)).map
        (fun p => (p.1, some p.2))).map Prod.fst
      = (record.map Prod.fst).filter (fun k => k ≠ "Id") := by
  induction record with
  | nil => rfl
  | cons hd tl ih =>
    simp only [List.map_cons, List.mem_cons] at htype hattr
    push_neg at htype hattr
    obtain ⟨h1, h2⟩ := htype
    obtain ⟨h3, h4⟩ := hattr
    have ih' := ih h2 h4
    by_cases hid : hd.1 = "Id"
    · have hk : isDataKey hd.1 = false := by simp [isDataKey, hid]
      simpa [List.filter_cons, hk, hid] using ih'
    · have hk : isDataKey hd.1 = true := by
        simp [isDataKey, hid, Ne.symm h1, Ne.symm h3]
      simpa [List.filter_cons, hk, hid] using ih'

lemma no_id_in_filtered_keys (record : RecordJ) :
    "Id" ∉ (record.map Prod.fst).filter (fun k => k ≠ "Id") := by
  intro hmem
  have h2 := (List.mem_filter.mp hmem).2
  simp at h2

/-- C2: the record passed to the encode path by `Batch._write` contains no
`Id` field when the owning job's operation is `insert`; contains only the
`Id` field for `delete` and `hardDelete`; and for every other operation
contains the `Id` field followed by all remaining fields of the input record
(records carrying the JS-object metadata keys `type`/`attributes` excluded,
those being stripped as metadata, not data fields). -/
theorem batchWriteShapeSpec (record : RecordJ)
    (htype : "type" ∉ record.map Prod.fst)
    (hattr : "attributes" ∉ record.map Prod.fst) :
    "Id" ∉ (writeShape (some BulkOperation.insert) record).map Prod.fst
    ∧ (writeShape (some BulkOperation.insert) record).map Prod.fst
        = (record.map Prod.fst).filter (fun k => k ≠ "Id")
    ∧ (writeShape (some BulkOperation.delete) record).map Prod.fst = ["Id"]
    ∧ (writeShape (some BulkOperation.hardDelete) record).map Prod.fst = ["Id"]
    ∧ (writeShape (some BulkOperation.update) record).map Prod.fst
        = "Id" :: (record.map Prod.fst).filter (fun k => k ≠ "Id")
    ∧ (writeShape (some BulkOperation.upsert) record).map Prod.fst
        = "Id" :: (record.map Prod.fst).filter (fun k => k ≠ "Id")
    ∧ (writeShape (some BulkOperation.query) record).map Prod.fst
        = "Id" :: (record.map Prod.fst).filter (fun k => k ≠ "Id")
    ∧ (writeShape (some BulkOperation.queryAll) record).map Prod.fst
        = "Id" :: (record.map Prod.fst).filter (fun k => k ≠ "Id") := by
  have hkeys := rrec_keys record htype hattr
  have hnid := no_id_in_filtered_keys record
  have hins : (writeShape (some BulkOperation.insert) record).map Prod.fst
      = (record.map Prod.fst).filter (fun k => k ≠ "Id") := hkeys
  have hrest : ∀ op : Option BulkOperation,
      writeShape op record
          = ("Id", (record.find? (fun p => p.1 = "Id")).map Prod.snd) ::
              (record.filter (fun p => isDataKey p.1)).map (fun p => (p.1, some p.2)) →
      (writeShape op record).map Prod.fst
          = "Id" :: (record.map Prod.fst).filter (fun k => k ≠ "Id") := by
    intro op hop
    rw [hop, List.map_cons, hkeys]
  refine ⟨hins ▸ hnid, hins, rfl, rfl, ?_, ?_, ?_, ?_⟩ <;>
    exact hrest _ rfl

theorem batchWriteShapeSpec_witness :
    "Id" ∉ (writeShape (some BulkOperation.insert)
        [("Id", JSVal.str "001"), ("Name", JSVal.str "Acme")]).map Prod.fst
    ∧ (writeShape (some BulkOperation.insert)
        [("Id", JSVal.str "001"), ("Name", JSVal.str "Acme")]).map Prod.fst
        = (([("Id", JSVal.str "001"), ("Name", JSVal.str "Acme")] : RecordJ).map
            Prod.fst).filter (fun k => k ≠ "Id")
    ∧ (writeShape (some BulkOperation.delete)
        [("Id", JSVal.str "001"), ("Name", JSVal.str "Acme")]).map Prod.fst = ["Id"]
    ∧ (writeShape (some BulkOperation.hardDelete)
        [("Id", JSVal.str "001"), ("Name", JSVal.str "Acme")]).map Prod.fst = ["Id"]
    ∧ (writeShape (some BulkOperation.update)
        [("Id", JSVal.str "001"), ("Name", JSVal.str "Acme")]).map Prod.fst
        = "Id" :: (([("Id", JSVal.str "001"), ("Name", JSVal.str "Acme")] : RecordJ).map
            Prod.fst).filter (fun k => k ≠ "Id")
    ∧ (writeShape (some BulkOperation.upsert)
        [("Id", JSVal.str "001"), ("Name", JSVal.str "Acme")]).map Prod.fst
        = "Id" :: (([("Id", JSVal.str "001"), ("Name", JSVal.str "Acme")] : RecordJ).map
            Prod.fst).filter (fun k => k ≠ "Id")
    ∧ (writeShape (some BulkOperation.query)
        [("Id", JSVal.str "001"), ("Name", JSVal.str "Acme")]).map Prod.fst
        = "Id" :: (([("Id", JSVal.str "001"), ("Name", JSVal.str "Acme")] : RecordJ).map
            Prod.fst).filter (fun k => k ≠ "Id")
    ∧ (writeShape (some BulkOperation.queryAll)
        [("Id", JSVal.str "001"), ("Name", JSVal.str "Acme")]).map Prod.fst
        = "Id" :: (([("Id", JSVal.str "001"), ("Name", JSVal.str "Acme")] : RecordJ).map
            Prod.fst).filter (fun k => k ≠ "Id") :=
  batchWriteShapeSpec [("Id", JSVal.str "001"), ("Name", JSVal.str "Acme")]
    (by decide) (by decide)

/-- C4: invoking `execute` (or its aliases `run`/`exec`) on a `Batch` whose
result has already been created fails immediately with a synchronous error and
produces no upload activity; a first `execute` creates the result, so a
further invocation falls under the guard. -/
theorem batchExecuteTwiceSpec (b : BatchExecState) (input : ExecInput)
    (hb : b.hasResult = true) :
    batchExecute b input = Except.error "Batch already executed."
    ∧ batchRun b input = Except.error "Batch already executed."
    ∧ batchExec b input = Except.error "Batch already executed."
    ∧ batchExecute ⟨false⟩ input = Except.ok (⟨true⟩, execEffects input) := by
  refine ⟨?_, ?_, ?_, rfl⟩ <;> simp [batchExecute, batchRun, batchExec, hb]

theorem batchExecuteTwiceSpec_witness :
    batchExecute ⟨true⟩ ExecInput.nothing = Except.error "Batch already executed."
    ∧ batchRun ⟨true⟩ ExecInput.nothing = Except.error "Batch already executed."
    ∧ batchExec ⟨true⟩ ExecInput.nothing = Except.error "Batch already executed."
    ∧ batchExecute ⟨false⟩ ExecInput.nothing
        = Except.ok (⟨true⟩, execEffects ExecInput.nothing) :=
  batchExecuteTwiceSpec ⟨true⟩ ExecInput.nothing rfl

/-- C6: once `Job.open` has succeeded (its open request is pending or
completed), a further call returns that same pending/completed result with no
second open request issued; and `open()` on a job whose `type` or `operation`
is not set fails synchronously. -/
theorem jobOpenSpec (j : Job) (r : Nat) (j' : Job) (issued : Bool) (j2 : Job)
    (hopen : jobOpen j = Except.ok (r, j', issued))
    (hbad : ¬ jsTruthy j2.type ∨ j2.operation = none) :
    jobOpen j' = Except.ok (r, j', false)
    ∧ jobOpen j2 = Except.error "type / operation is required to open a new job" := by
  constructor
  · unfold jobOpen at hopen
    by_cases hg : ¬ jsTruthy j.type ∨ j.operation = none
    · rw [if_pos hg] at hopen
      exact absurd hopen (by simp)
    · rw [if_neg hg] at hopen
      push_neg at hg
      obtain ⟨hg1, hg2⟩ := hg
      cases hj : j.jobInfo with
      | some r0 =>
        rw [hj] at hopen
        obtain ⟨hr, hj', hiss⟩ := by
          simpa using hopen
        subst hr hj'
        simp [jobOpen, hg1, hg2, hj]
      | none =>
        rw [hj] at hopen
        obtain ⟨hr, hj', hiss⟩ := by
          simpa using hopen
        subst hr hj'
        simp [jobOpen, hg1, hg2]
  · unfold jobOpen
    rw [if_pos hbad]

theorem jobOpenSpec_witness :
    jobOpen { type := some "Account", operation := some BulkOperation.insert,
              options := {}, id := none, state := JobState.Unknown,
              jobInfo := some 0, nextRef := 1 }
        = Except.ok (0,
            { type := some "Account", operation := some BulkOperation.insert,
              options := {}, id := none, state := JobState.Unknown,
              jobInfo := some 0, nextRef := 1 }, false)
    ∧ jobOpen (mkJob none none none none)
        = Except.error "type / operation is required to open a new job" :=
  jobOpenSpec (mkJob (some "Account") (some BulkOperation.insert) none none) 0
    { type := some "Account", operation := some BulkOperation.insert,
      options := {}, id := none, state := JobState.Unknown,
      jobInfo := some 0, nextRef := 1 }
    true (mkJob none none none none) rfl (Or.inl (by decide))

/-- C7: a `Job` constructed without a known identity starts in state
`Unknown`, and constructed from a known (non-empty) identity starts in state
`Open`; after a successful open (remote reporting `Open`) its state is `Open`
with a non-null assigned identity; after a successful close (remote reporting
`Closed`) its state is `Closed` and its cached identity is null again. -/
theorem jobLifecycleSpec (t : Option String) (op : Option BulkOperation)
    (opts : Option BulkOptions) (jid : String) (j jc : Job) (info infoC : JobInfo)
    (hjid : jid ≠ "")
    (hopenState : info.state = JobState.Open)
    (hcloseState : infoC.state = JobState.Closed) :
    (mkJob t op opts none).state = JobState.Unknown
    ∧ (mkJob t op opts (some jid)).state = JobState.Open
    ∧ (jobOpenApply j info).state = JobState.Open
    ∧ (jobOpenApply j info).id = some info.id
    ∧ (jobOpenApply j info).id ≠ none
    ∧ (jobClose jc (Except.ok infoC)).1.state = JobState.Closed
    ∧ (jobClose jc (Except.ok infoC)).1.id = none := by
  refine ⟨rfl, ?_, ?_, rfl, by simp [jobOpenApply], ?_, rfl⟩
  · simp [mkJob, jsTruthy, hjid]
  · simp [jobOpenApply, hopenState]
  · simp [jobClose, jobChangeState, hcloseState]

theorem jobLifecycleSpec_witness :
    (mkJob (some "Account") (some BulkOperation.insert) none none).state
        = JobState.Unknown
    ∧ (mkJob (some "Account") (some BulkOperation.insert) none
        (some "750w")).state = JobState.Open
    ∧ (jobOpenApply (mkJob (some "Account") (some BulkOperation.insert) none none)
        ⟨"750w", "Account", BulkOperation.insert, JobState.Open⟩).state
        = JobState.Open
    ∧ (jobOpenApply (mkJob (some "Account") (some BulkOperation.insert) none none)
        ⟨"750w", "Account", BulkOperation.insert, JobState.Open⟩).id = some "750w"
    ∧ (jobOpenApply (mkJob (some "Account") (some BulkOperation.insert) none none)
        ⟨"750w", "Account", BulkOperation.insert, JobState.Open⟩).id ≠ none
    ∧ (jobClose (mkJob (some "Account") (some BulkOperation.insert) none
          (some "750w"))
        (Except.ok ⟨"750w", "Account", BulkOperation.insert,
          JobState.Closed⟩)).1.state = JobState.Closed
    ∧ (jobClose (mkJob (some "Account") (some BulkOperation.insert) none
          (some "750w"))
        (Except.ok ⟨"750w", "Account", BulkOperation.insert,
          JobState.Closed⟩)).1.id = none :=
  jobLifecycleSpec (some "Account") (some BulkOperation.insert) none "750w"
    (mkJob (some "Account") (some BulkOperation.insert) none none)
    (mkJob (some "Account") (some BulkOperation.insert) none (some "750w"))
    ⟨"750w", "Account", BulkOperation.insert, JobState.Open⟩
    ⟨"750w", "Account", BulkOperation.insert, JobState.Closed⟩
    (by decide) rfl rfl
